import Mathlib

/-!
Shallow embedding of the Carambolage car simulation core
(`src/game/car.rs`) and of the Newtonian point-mass model described in
the specification.  `f32` scalars are modelled as rationals; the
transcendental functions used by nalgebra's rotation constructors
(cosine, sine, vector norm) are abstracted as an explicit `RealOps`
record, since none of the verified properties depend on their values.
The fallible `Vector3::from_homogeneous(..).unwrap()` call is modelled
by an `Option`-valued `run`.
-/

namespace Carambolage

/-- 3D vector of scalars, standing in for nalgebra `Vector3<f32>`. -/
structure Vec3 where
  x : ℚ
  y : ℚ
  z : ℚ
deriving DecidableEq, Repr

/-- 4D (homogeneous) vector, standing in for nalgebra `Vector4<f32>`. -/
structure Vec4 where
  x : ℚ
  y : ℚ
  z : ℚ
  w : ℚ
deriving DecidableEq, Repr

instance : Add Vec3 := ⟨fun u v => ⟨u.x + v.x, u.y + v.y, u.z + v.z⟩⟩

instance : HMul Vec3 ℚ Vec3 := ⟨fun v a => ⟨v.x * a, v.y * a, v.z * a⟩⟩

/-- nalgebra `Vector3::to_homogeneous`: a vector (direction) gets a zero
appended as its homogeneous coordinate. -/
def Vec3.to_homogeneous (v : Vec3) : Vec4 := ⟨v.x, v.y, v.z, 0⟩

/-- nalgebra `Vector3::from_homogeneous`: succeeds exactly when the
homogeneous coordinate is zero, in which case it drops it (no division
is performed for vectors, unlike points). -/
def Vec3.from_homogeneous (v : Vec4) : Option Vec3 :=
  if v.w = 0 then some ⟨v.x, v.y, v.z⟩ else none

/-- 3x3 matrix (row major), standing in for nalgebra `Matrix3<f32>`. -/
structure Mat3 where
  a11 : ℚ
  a12 : ℚ
  a13 : ℚ
  a21 : ℚ
  a22 : ℚ
  a23 : ℚ
  a31 : ℚ
  a32 : ℚ
  a33 : ℚ
deriving DecidableEq, Repr

/-- 4x4 matrix (row major), standing in for nalgebra `Matrix4<f32>`. -/
structure Mat4 where
  a11 : ℚ
  a12 : ℚ
  a13 : ℚ
  a14 : ℚ
  a21 : ℚ
  a22 : ℚ
  a23 : ℚ
  a24 : ℚ
  a31 : ℚ
  a32 : ℚ
  a33 : ℚ
  a34 : ℚ
  a41 : ℚ
  a42 : ℚ
  a43 : ℚ
  a44 : ℚ
deriving DecidableEq, Repr

/-- The 4x4 identity matrix. -/
def Mat4.identity : Mat4 := ⟨1,0,0,0, 0,1,0,0, 0,0,1,0, 0,0,0,1⟩

/-- Matrix-vector product `m * v` for 4x4 matrices. -/
def Mat4.mulVec (m : Mat4) (v : Vec4) : Vec4 :=
  ⟨m.a11 * v.x + m.a12 * v.y + m.a13 * v.z + m.a14 * v.w,
   m.a21 * v.x + m.a22 * v.y + m.a23 * v.z + m.a24 * v.w,
   m.a31 * v.x + m.a32 * v.y + m.a33 * v.z + m.a34 * v.w,
   m.a41 * v.x + m.a42 * v.y + m.a43 * v.z + m.a44 * v.w⟩

/-- Matrix-matrix product for 4x4 matrices. -/
def Mat4.mul (m n : Mat4) : Mat4 :=
  ⟨m.a11 * n.a11 + m.a12 * n.a21 + m.a13 * n.a31 + m.a14 * n.a41,
   m.a11 * n.a12 + m.a12 * n.a22 + m.a13 * n.a32 + m.a14 * n.a42,
   m.a11 * n.a13 + m.a12 * n.a23 + m.a13 * n.a33 + m.a14 * n.a43,
   m.a11 * n.a14 + m.a12 * n.a24 + m.a13 * n.a34 + m.a14 * n.a44,
   m.a21 * n.a11 + m.a22 * n.a21 + m.a23 * n.a31 + m.a24 * n.a41,
   m.a21 * n.a12 + m.a22 * n.a22 + m.a23 * n.a32 + m.a24 * n.a42,
   m.a21 * n.a13 + m.a22 * n.a23 + m.a23 * n.a33 + m.a24 * n.a43,
   m.a21 * n.a14 + m.a22 * n.a24 + m.a23 * n.a34 + m.a24 * n.a44,
   m.a31 * n.a11 + m.a32 * n.a21 + m.a33 * n.a31 + m.a34 * n.a41,
   m.a31 * n.a12 + m.a32 * n.a22 + m.a33 * n.a32 + m.a34 * n.a42,
   m.a31 * n.a13 + m.a32 * n.a23 + m.a33 * n.a33 + m.a34 * n.a43,
   m.a31 * n.a14 + m.a32 * n.a24 + m.a33 * n.a34 + m.a34 * n.a44,
   m.a41 * n.a11 + m.a42 * n.a21 + m.a43 * n.a31 + m.a44 * n.a41,
   m.a41 * n.a12 + m.a42 * n.a22 + m.a43 * n.a32 + m.a44 * n.a42,
   m.a41 * n.a13 + m.a42 * n.a23 + m.a43 * n.a33 + m.a44 * n.a43,
   m.a41 * n.a14 + m.a42 * n.a24 + m.a43 * n.a34 + m.a44 * n.a44⟩

/-- nalgebra `Matrix3::to_homogeneous`: embed a 3x3 linear map into a
4x4 homogeneous matrix (last row and column are those of the identity). -/
def Mat3.to_homogeneous (m : Mat3) : Mat4 :=
  ⟨m.a11, m.a12, m.a13, 0,
   m.a21, m.a22, m.a23, 0,
   m.a31, m.a32, m.a33, 0,
   0, 0, 0, 1⟩

/-- Abstraction of the real-valued transcendental operations used by
nalgebra (`f32::cos`, `f32::sin`, vector norm).  The verified
properties hold for every interpretation of these. -/
structure RealOps where
  cos : ℚ → ℚ
  sin : ℚ → ℚ
  norm : Vec3 → ℚ

/-- nalgebra `Rotation3::from_axis_angle` (Rodrigues' formula), with the
axis passed componentwise and sine/cosine taken from `ops`. -/
def Rotation3.from_axis_angle (ops : RealOps) (ux uy uz angle : ℚ) : Mat3 :=
  let s := ops.sin angle
  let c := ops.cos angle
  let omc := 1 - c
  ⟨ux * ux * omc + c, ux * uy * omc - uz * s, ux * uz * omc + uy * s,
   ux * uy * omc + uz * s, uy * uy * omc + c, uy * uz * omc - ux * s,
   ux * uz * omc - uy * s, uy * uz * omc + ux * s, uz * uz * omc + c⟩

/-- nalgebra `Matrix4::new_rotation(axisangle)`: `Rotation3::new` on the
scaled axis (identity when the axis is zero, otherwise Rodrigues on the
normalized axis with the norm as angle), embedded homogeneously. -/
def Matrix4.new_rotation (ops : RealOps) (axisangle : Vec3) : Mat4 :=
  if axisangle = ⟨0, 0, 0⟩ then Mat4.identity
  else
    let n := ops.norm axisangle
    (Rotation3.from_axis_angle ops (axisangle.x / n) (axisangle.y / n)
      (axisangle.z / n) n).to_homogeneous

/-- nalgebra `Rotation3::from_euler_angles(roll, pitch, yaw)` embedded
homogeneously, as used by `Car::draw`. -/
def Matrix4.from_euler_angles (ops : RealOps) (roll pitch yaw : ℚ) : Mat4 :=
  let sr := ops.sin roll
  let cr := ops.cos roll
  let sp := ops.sin pitch
  let cp := ops.cos pitch
  let sy := ops.sin yaw
  let cy := ops.cos yaw
  (Mat3.mk (cy * cp) (cy * sp * sr - sy * cr) (cy * sp * cr + sy * sr)
    (sy * cp) (sy * sp * sr + cy * cr) (sy * sp * cr - cy * sr)
    (-sp) (cp * sr) (cp * cr)).to_homogeneous

/-- nalgebra `Matrix4::new_translation`. -/
def Matrix4.new_translation (t : Vec3) : Mat4 :=
  ⟨1, 0, 0, t.x,
   0, 1, 0, t.y,
   0, 0, 1, t.z,
   0, 0, 0, 1⟩

/-- Modelled from the spec: the graphical model collaborator (`Model`,
from `src/game/model.rs`, not under `src/`).  The physics core treats it
as an opaque draw sink; `draw` is modelled as returning the submitted
matrix and has no effect on any car state. -/
structure Model where
  dummy : Unit
deriving DecidableEq, Repr

/-- `Model::new()`. -/
def Model.new : Model := ⟨()⟩

/-- `Model::draw(&self, mvp)`: opaque sink, modelled as returning the
submitted matrix. -/
def Model.draw (_m : Model) (mvp : Mat4) : Mat4 := mvp

/-- Modelled from the spec: the controller collaborator
(`src/game/controller.rs`, not under `src/`) supplies two real-valued
axes in [-1, 1] (steer = x axis, throttle = y axis), not validated by
the core. -/
structure Controller where
  x_axis : ℚ
  y_axis : ℚ
deriving DecidableEq, Repr

/-- `Controller::get_x_axis()` (steer). -/
def Controller.get_x_axis (ct : Controller) : ℚ := ct.x_axis

/-- `Controller::get_y_axis()` (throttle). -/
def Controller.get_y_axis (ct : Controller) : ℚ := ct.y_axis

/-- Modelled from the spec: the `time::Duration` collaborator (external
crate): seconds plus a nanosecond part with invariant
`0 ≤ nanos < 10^9`. -/
structure Duration where
  secs : ℤ
  nanos : ℤ
deriving DecidableEq, Repr

/-- `Duration::num_milliseconds()`: the total number of whole
milliseconds, truncating the sub-millisecond remainder (Rust integer
division truncates toward zero; on the invariant `0 ≤ nanos` this is
floor division). -/
def Duration.num_milliseconds (d : Duration) : ℤ :=
  d.secs * 1000 + d.nanos.tdiv 1000000

/-- The steering-model car of `src/game/car.rs`. -/
structure Car where
  center_of_mass : Vec3
  orientation : Vec3
  mass : ℚ
  dist_front_axle : ℚ
  dist_rear_axle : ℚ
  model : Model
deriving DecidableEq, Repr

/-- `impl Default for Car`. -/
def Car.default : Car :=
  { center_of_mass := ⟨0, 0, 0⟩
    orientation := ⟨0, 0, 0⟩
    mass := 1
    dist_front_axle := 1
    dist_rear_axle := 1
    model := Model.new }

/-- `Car::new(center_of_mass, mass)`: starts from the default car, sets
the center of mass, and takes the requested mass only when it exceeds 1. -/
def Car.new (center_of_mass : Vec3) (mass : ℚ) : Car :=
  let car := { Car.default with center_of_mass := center_of_mass }
  if mass > 1 then { car with mass := mass } else car

/-- `Car::run(&mut self, delta_time, controller)`.  Returns `none` where
the Rust code would panic (the `unwrap` of `from_homogeneous`), and
`some` of the updated car otherwise. -/
def Car.run (ops : RealOps) (c : Car) (delta_time : Duration)
    (controller : Option Controller) : Option Car :=
  match controller with
  | some ct =>
    let dt : ℚ := (Duration.num_milliseconds delta_time : ℚ) / 1000
    let accel := ct.get_y_axis
    let steer := ct.get_x_axis * accel
    let o : Vec3 := { c.orientation with z := c.orientation.z - steer * dt * 3.5 }
    let rot_mat := Matrix4.new_rotation ops o
    let forward := (Vec3.mk 0 1 0).to_homogeneous
    let forward := rot_mat.mulVec forward
    let forward := { forward with w := 0 }
    match Vec3.from_homogeneous forward with
    | some f =>
      some { c with
              orientation := o
              center_of_mass := c.center_of_mass + f * accel * dt * (10 : ℚ) }
    | none => none
  | none => some c

/-- `Car::draw(&self, view, projection)`: builds
`projection * view * translation * rotation` and submits it; the car is
borrowed immutably, so this is a pure function of the car. -/
def Car.draw (ops : RealOps) (c : Car) (view projection : Mat4) : Mat4 :=
  let rot := Matrix4.from_euler_angles ops 0 0 c.orientation.z
  let translation := Matrix4.new_translation c.center_of_mass
  let modelMat := translation.mul rot
  let mvp := (projection.mul view).mul modelMat
  c.model.draw mvp

/-- A sequence of `run` calls, threading the car state and propagating a
panic (`none`) from any step. -/
def Car.runSeq (ops : RealOps) (c : Car)
    (steps : List (Duration × Option Controller)) : Option Car :=
  match steps with
  | [] => some c
  | s :: rest =>
    match Car.run ops c s.1 s.2 with
    | some c2 => Car.runSeq ops c2 rest
    | none => none

/-- Forward direction as the spec describes it: rotate the canonical
forward vector (0,1,0) through the rotation built fresh from the given
orientation, force the homogeneous coordinate to zero, and drop it. -/
def forwardDir (ops : RealOps) (o : Vec3) : Vec3 :=
  let f := (Matrix4.new_rotation ops o).mulVec (Vec3.mk 0 1 0).to_homogeneous
  ⟨f.x, f.y, f.z⟩

/-- 2D vector for the point-mass model. -/
structure Vec2 where
  x : ℚ
  y : ℚ
deriving DecidableEq, Repr

instance : Add Vec2 := ⟨fun u v => ⟨u.x + v.x, u.y + v.y⟩⟩

/-- Modelled from the spec: the Newtonian point-mass car (the earlier
force/mass variant of `Car`, whose source file is not under `src/`):
position, a never-updated rotation scalar, velocity, a constant force,
and a mass required positive at construction. -/
structure PointMassCar where
  position : Vec2
  rot : ℚ
  velocity : Vec2
  force : Vec2
  mass : ℚ
deriving DecidableEq, Repr

/-- Modelled from the spec: `advance(time_step)` of the point-mass
model: `position += velocity * time_step + force / (2 * mass) *
time_step^2` using the pre-update velocity, then
`velocity += force / mass * time_step`. -/
def PointMassCar.advance (c : PointMassCar) (time_step : ℚ) : PointMassCar :=
  { c with
    position :=
      ⟨c.position.x + c.velocity.x * time_step
          + c.force.x / (2 * c.mass) * time_step ^ 2,
        c.position.y + c.velocity.y * time_step
          + c.force.y / (2 * c.mass) * time_step ^ 2⟩
    velocity :=
      ⟨c.velocity.x + c.force.x / c.mass * time_step,
        c.velocity.y + c.force.y / c.mass * time_step⟩ }

/-- A concrete interpretation of the transcendental operations, used
only to instantiate witnesses. -/
def ops0 : RealOps := ⟨fun _ => 1, fun _ => 0, fun _ => 1⟩

/-! ## Helper lemmas -/

lemma add_def (u v : Vec3) : u + v = ⟨u.x + v.x, u.y + v.y, u.z + v.z⟩ := rfl

lemma smul_def (v : Vec3) (a : ℚ) : v * a = ⟨v.x * a, v.y * a, v.z * a⟩ := rfl

/-- Reduction of `run` on a present control sample: the homogeneous
coordinate is forced to zero, so `from_homogeneous` succeeds, the yaw is
decremented by `steer * throttle * dt * 3.5`, and the center of mass
advances along the recomputed forward direction. -/
lemma run_some_eq (ops : RealOps) (c : Car) (d : Duration) (ct : Controller) :
    Car.run ops c d (some ct) =
      some { c with
        orientation := ⟨c.orientation.x, c.orientation.y,
          c.orientation.z - ct.get_x_axis * ct.get_y_axis
            * ((Duration.num_milliseconds d : ℚ) / 1000) * 3.5⟩
        center_of_mass := c.center_of_mass
          + forwardDir ops ⟨c.orientation.x, c.orientation.y,
              c.orientation.z - ct.get_x_axis * ct.get_y_axis
                * ((Duration.num_milliseconds d : ℚ) / 1000) * 3.5⟩
            * ct.get_y_axis * ((Duration.num_milliseconds d : ℚ) / 1000) * (10 : ℚ) } := by
  simp [Car.run, Vec3.from_homogeneous, forwardDir, Vec3.to_homogeneous, Mat4.mulVec]

lemma run_preserves (ops : RealOps) (c : Car) (d : Duration) (oct : Option Controller) :
    ∃ c2, Car.run ops c d oct = some c2 ∧ c2.mass = c.mass
      ∧ c2.orientation.x = c.orientation.x ∧ c2.orientation.y = c.orientation.y := by
  cases oct with
  | none => exact ⟨c, rfl, rfl, rfl, rfl⟩
  | some ct => exact ⟨_, run_some_eq ops c d ct, rfl, rfl, rfl⟩

lemma runSeq_preserves (ops : RealOps) :
    ∀ (steps : List (Duration × Option Controller)) (c c' : Car),
      Car.runSeq ops c steps = some c' →
      c'.mass = c.mass ∧ c'.orientation.x = c.orientation.x
        ∧ c'.orientation.y = c.orientation.y := by
  intro steps
  induction steps with
  | nil =>
    intro c c' h
    simp only [Car.runSeq, Option.some.injEq] at h
    subst h
    exact ⟨rfl, rfl, rfl⟩
  | cons s rest ih =>
    intro c c' h
    obtain ⟨c2, hrun, hm, hx, hy⟩ := run_preserves ops c s.1 s.2
    rw [Car.runSeq, hrun] at h
    obtain ⟨m2, x2, y2⟩ := ih c2 c' h
    exact ⟨m2.trans hm, x2.trans hx, y2.trans hy⟩

lemma new_orientation_zero (p : Vec3) (m : ℚ) :
    (Car.new p m).orientation = ⟨0, 0, 0⟩ := by
  by_cases hm : m > 1 <;> simp [Car.new, Car.default, hm]

lemma new_mass_pos (p : Vec3) (m : ℚ) : 0 < (Car.new p m).mass := by
  by_cases hm : m > 1
  · simp only [Car.new, if_pos hm]
    linarith
  · simp [Car.new, Car.default, hm]

/-! ## Claim theorems -/

/-- Claim C1: advancing with no control sample leaves the car entirely
unchanged — `run` returns exactly the input state (position and
orientation bit-for-bit identical, no other field touched, no panic). -/
theorem run_none_coasts (ops : RealOps) (c : Car) (d : Duration) :
    Car.run ops c d none = some c := rfl

/-- Claim C2: on `run(delta_time, Some(ct))` the new center of mass is the
old one plus `forward_dir * accel * dt * 10.0`, where `accel` is the
throttle axis, `dt` the whole-millisecond time step in seconds, and
`forward_dir` rotates the canonical forward vector (0,1,0) through a
rotation matrix built fresh from the already-updated orientation (the
yaw update happens before the forward direction is recomputed). -/
theorem run_center_of_mass_update (ops : RealOps) (c : Car) (d : Duration)
    (ct : Controller) :
    (Car.run ops c d (some ct)).map Car.center_of_mass =
      some (c.center_of_mass
        + forwardDir ops ⟨c.orientation.x, c.orientation.y,
            c.orientation.z - ct.get_x_axis * ct.get_y_axis
              * ((Duration.num_milliseconds d : ℚ) / 1000) * 3.5⟩
          * ct.get_y_axis * ((Duration.num_milliseconds d : ℚ) / 1000) * (10 : ℚ)) := by
  rw [run_some_eq]
  rfl

/-- Claim C3: on `run(delta_time, Some(ct))` the new yaw (orientation z)
is the old one minus `effective_steer * dt * 3.5`, with
`effective_steer = get_x_axis() * get_y_axis()` (raw steer scaled by
throttle). -/
theorem run_yaw_update (ops : RealOps) (c : Car) (d : Duration) (ct : Controller) :
    (Car.run ops c d (some ct)).map (fun c2 => c2.orientation.z) =
      some (c.orientation.z - (ct.get_x_axis * ct.get_y_axis)
        * ((Duration.num_milliseconds d : ℚ) / 1000) * 3.5) := by
  rw [run_some_eq]
  rfl

/-- Claim C4: for any steer input in [-1, 1], if the throttle axis is 0
then the effective steering is 0 and `run` leaves the whole orientation
vector unchanged, whatever the steer magnitude. -/
theorem steer_gated_by_throttle (ops : RealOps) (c : Car) (d : Duration)
    (ct : Controller) (hx0 : -1 ≤ ct.get_x_axis) (hx1 : ct.get_x_axis ≤ 1)
    (hy : ct.get_y_axis = 0) :
    ct.get_x_axis * ct.get_y_axis = 0 ∧
    (Car.run ops c d (some ct)).map Car.orientation = some c.orientation := by
  refine ⟨by rw [hy, mul_zero], ?_⟩
  rw [run_some_eq]
  simp [hy]

/-- Witness for claim C4 at steer 1, throttle 0 on the default car. -/
theorem steer_gated_by_throttle_witness :
    (Controller.mk 1 0).get_x_axis * (Controller.mk 1 0).get_y_axis = 0 ∧
    (Car.run ops0 Car.default ⟨1, 0⟩ (some ⟨1, 0⟩)).map Car.orientation
      = some Car.default.orientation :=
  steer_gated_by_throttle ops0 Car.default ⟨1, 0⟩ ⟨1, 0⟩
    (by norm_num [Controller.get_x_axis]) (by norm_num [Controller.get_x_axis]) rfl

/-- Claim C5: the homogeneous coordinate of the rotated forward vector is
forced to exactly zero before de-homogenizing, so the conversion back to
a 3-vector always succeeds: `run` never reaches the panicking branch of
the `unwrap`, for any state, duration and control sample. -/
theorem run_never_panics (ops : RealOps) (c : Car) (d : Duration) (ct : Controller) :
    (Car.run ops c d (some ct)).isSome = true := by
  rw [run_some_eq]
  rfl

/-- Claim C6: the Newtonian point-mass model advances
`position += velocity * t + force / (2 * mass) * t^2` with the
pre-update velocity, then `velocity += force / mass * t`; in particular
from position (0,0), velocity (0,0), force (1,0), mass 1, one step of
size 2 yields position (2,0) and velocity (2,0). -/
theorem point_mass_advance_spec (c : PointMassCar) (t : ℚ) :
    (c.advance t).position =
      ⟨c.position.x + c.velocity.x * t + c.force.x / (2 * c.mass) * t ^ 2,
       c.position.y + c.velocity.y * t + c.force.y / (2 * c.mass) * t ^ 2⟩ ∧
    (c.advance t).velocity =
      ⟨c.velocity.x + c.force.x / c.mass * t,
       c.velocity.y + c.force.y / c.mass * t⟩ ∧
    ((PointMassCar.mk ⟨0, 0⟩ 0 ⟨0, 0⟩ ⟨1, 0⟩ 1).advance 2).position = ⟨2, 0⟩ ∧
    ((PointMassCar.mk ⟨0, 0⟩ 0 ⟨0, 0⟩ ⟨1, 0⟩ 1).advance 2).velocity = ⟨2, 0⟩ := by
  refine ⟨rfl, rfl, ?_, ?_⟩ <;>
    simp only [PointMassCar.advance, Vec2.mk.injEq] <;> norm_num

/-- Claim C7: `Car::new` keeps the default mass 1.0 whenever the
requested mass is at most 1, and takes the requested mass whenever it
exceeds 1. -/
theorem new_mass_validation (p : Vec3) (m : ℚ) :
    (m ≤ 1 → (Car.new p m).mass = 1) ∧ (1 < m → (Car.new p m).mass = m) := by
  constructor
  · intro h
    have hm : ¬ m > 1 := not_lt.mpr h
    simp [Car.new, Car.default, hm]
  · intro h
    simp [Car.new, if_pos h]

/-- Witness for claim C7 at masses 1/2 and 2. -/
theorem new_mass_validation_witness :
    ((1 / 2 : ℚ) ≤ 1 ∧ (Car.new ⟨0, 0, 0⟩ (1 / 2)).mass = 1) ∧
    ((1 : ℚ) < 2 ∧ (Car.new ⟨0, 0, 0⟩ 2).mass = 2) :=
  ⟨⟨by norm_num, (new_mass_validation ⟨0, 0, 0⟩ (1 / 2)).1 (by norm_num)⟩,
   ⟨by norm_num, (new_mass_validation ⟨0, 0, 0⟩ 2).2 (by norm_num)⟩⟩

/-- Claim C8: every car built by `Car::new` has positive mass, and no
sequence of `run` calls ever changes the mass field, so the mass stays
positive after construction (draw borrows the car immutably and is a
pure function of it in this embedding). -/
theorem mass_always_positive (ops : RealOps) (p : Vec3) (m : ℚ)
    (steps : List (Duration × Option Controller)) (c' : Car)
    (h : Car.runSeq ops (Car.new p m) steps = some c') :
    0 < (Car.new p m).mass ∧ 0 < c'.mass := by
  refine ⟨new_mass_pos p m, ?_⟩
  rw [(runSeq_preserves ops steps _ _ h).1]
  exact new_mass_pos p m

/-- Witness for claim C8: one full-throttle step from mass 5. -/
theorem mass_always_positive_witness :
    0 < (Car.new ⟨0, 0, 0⟩ 5).mass ∧
    0 < (Car.mk ⟨0, 10, 0⟩ ⟨0, 0, 0⟩ 5 1 1 Model.new).mass :=
  mass_always_positive ops0 ⟨0, 0, 0⟩ 5 [(⟨1, 0⟩, some ⟨0, 1⟩)]
    (Car.mk ⟨0, 10, 0⟩ ⟨0, 0, 0⟩ 5 1 1 Model.new)
    (by norm_num [Car.runSeq, run_some_eq, forwardDir, Matrix4.new_rotation,
      Mat4.identity, Mat4.mulVec, Vec3.to_homogeneous, Car.new, Car.default,
      Controller.get_x_axis, Controller.get_y_axis, Duration.num_milliseconds,
      Model.new, smul_def, add_def])

/-- Claim C9: for every car built by `Car::new` and every sequence of
`run` calls, the non-yaw orientation components stay exactly zero —
updates only ever touch the yaw component. -/
theorem orientation_only_yaw (ops : RealOps) (p : Vec3) (m : ℚ)
    (steps : List (Duration × Option Controller)) (c' : Car)
    (h : Car.runSeq ops (Car.new p m) steps = some c') :
    c'.orientation.x = 0 ∧ c'.orientation.y = 0 := by
  obtain ⟨-, hx, hy⟩ := runSeq_preserves ops steps _ _ h
  rw [hx, hy, new_orientation_zero p m]
  exact ⟨rfl, rfl⟩

/-- Witness for claim C9: one braking step from a nonzero start. -/
theorem orientation_only_yaw_witness :
    (Car.mk ⟨1, -18, 3⟩ ⟨0, 0, 0⟩ 1 1 1 Model.new).orientation.x = 0 ∧
    (Car.mk ⟨1, -18, 3⟩ ⟨0, 0, 0⟩ 1 1 1 Model.new).orientation.y = 0 :=
  orientation_only_yaw ops0 ⟨1, 2, 3⟩ 0 [(⟨2, 0⟩, some ⟨0, -1⟩)]
    (Car.mk ⟨1, -18, 3⟩ ⟨0, 0, 0⟩ 1 1 1 Model.new)
    (by norm_num [Car.runSeq, run_some_eq, forwardDir, Matrix4.new_rotation,
      Mat4.identity, Mat4.mulVec, Vec3.to_homogeneous, Car.new, Car.default,
      Controller.get_x_axis, Controller.get_y_axis, Duration.num_milliseconds,
      Model.new, smul_def, add_def])

/-- Claim C10: `run` only sees the duration through its whole-millisecond
count (`num_milliseconds / 1000`): two durations with the same count
give identical updates, and a duration shorter than one millisecond
gives `dt = 0`, leaving position and orientation unchanged. -/
theorem dt_whole_milliseconds (ops : RealOps) (c : Car) (oct : Option Controller)
    (d1 d2 d : Duration) (ct : Controller)
    (h12 : Duration.num_milliseconds d1 = Duration.num_milliseconds d2)
    (hs : d.secs = 0) (hn0 : 0 ≤ d.nanos) (hn1 : d.nanos < 1000000) :
    Car.run ops c d1 oct = Car.run ops c d2 oct ∧
    (Car.run ops c d (some ct)).map (fun c2 => (c2.center_of_mass, c2.orientation)) =
      some (c.center_of_mass, c.orientation) := by
  constructor
  · cases oct with
    | none => rfl
    | some ct2 => rw [run_some_eq, run_some_eq, h12]
  · have hms : Duration.num_milliseconds d = 0 := by
      rw [Duration.num_milliseconds, hs]
      have : d.nanos.tdiv 1000000 = 0 := Int.tdiv_eq_zero_of_lt hn0 hn1
      rw [this]
      ring
    rw [run_some_eq]
    simp [hms, smul_def, add_def]

/-- Witness for claim C10: 1.5 ms and 1.999999 ms agree; 0.999999 ms
freezes the pose. -/
theorem dt_whole_milliseconds_witness :
    Car.run ops0 Car.default ⟨0, 1500000⟩ (some ⟨0, 1⟩)
      = Car.run ops0 Car.default ⟨0, 1999999⟩ (some ⟨0, 1⟩) ∧
    (Car.run ops0 Car.default ⟨0, 999999⟩ (some ⟨0, 1⟩)).map
        (fun c2 => (c2.center_of_mass, c2.orientation))
      = some (Car.default.center_of_mass, Car.default.orientation) :=
  dt_whole_milliseconds ops0 Car.default (some ⟨0, 1⟩) ⟨0, 1500000⟩ ⟨0, 1999999⟩
    ⟨0, 999999⟩ ⟨0, 1⟩ (by decide) rfl (by decide) (by decide)

end Carambolage
